import Mathlib

/-!
Verification of the rio-editor core (src/main.rs): the `Editor` state, its
`update` reducer over `Message` events, and the asynchronous file operations
`pick_file`, `load_file`, `save_file`.  The external collaborators (the
`iced` text-editor buffer, the `rfd` file dialogs and the `tokio` filesystem)
are modelled explicitly: the buffer as a line/cursor structure following the
documented buffer semantics, and the dialogs/filesystem as oracle fields of
an environment record, so that each async operation becomes the pure function
of its oracles that the Rust control flow computes.
-/

namespace Rio

/-- Models `std::io::ErrorKind`: the platform-independent classification of a
filesystem failure.  Only the identity of the kind matters to the editor, so
a few named kinds plus a numeric catch-all suffice. -/
inductive IoErrorKind
  | NotFound
  | PermissionDenied
  | Other (code : Nat)
deriving DecidableEq, Repr

/-- The `Error` enum of src/main.rs: a cancelled/failed dialog, or an
underlying I/O failure carrying its kind. -/
inductive Error
  | DialogError
  | IoError (kind : IoErrorKind)
deriving DecidableEq, Repr

/-- Direction of a one-unit cursor move (the motions routed to the buffer). -/
inductive Direction
  | up
  | down
  | left
  | right
deriving DecidableEq, Repr

/-- Models the external `iced::widget::text_editor::Action` collaborator:
the closed set of atomic edit operations the editor forwards to its buffer. -/
inductive Action
  | InsertChar (c : Char)
  | InsertNewline
  | Backspace
  | Delete
  | MoveCursor (d : Direction)
  | MoveCursorTo (line col : Nat)
deriving DecidableEq, Repr

/-- Models the external `iced::widget::text_editor::Content` collaborator:
the in-memory buffer as a non-empty list of lines (each a list of
characters) plus a cursor position. -/
structure Content where
  lines : List (List Char)
  cursorLine : Nat
  cursorCol : Nat
deriving DecidableEq, Repr

/-- Split a character stream into lines at newline characters; the empty
stream is one empty line, so the result is always non-empty. -/
def splitLines : List Char → List (List Char)
  | [] => [[]]
  | c :: cs =>
    match splitLines cs with
    | [] => [[]]
    | l :: ls => if c = '\n' then [] :: l :: ls else (c :: l) :: ls

/-- Join lines back into a single character stream with newline separators. -/
def joinLines : List (List Char) → List Char
  | [] => []
  | [l] => l
  | l :: ls => l ++ '\n' :: joinLines ls

/-- `text_editor::Content::new()`: a single empty line, cursor at (0,0). -/
def Content.new : Content :=
  { lines := [[]], cursorLine := 0, cursorCol := 0 }

/-- `text_editor::Content::with(content)`: a fresh buffer built from the
given text, cursor at (0,0). -/
def Content.withText (s : String) : Content :=
  { lines := splitLines s.data, cursorLine := 0, cursorCol := 0 }

/-- `Content::text()`: the buffer joined with newline separators. -/
def Content.text (c : Content) : String :=
  String.mk (joinLines c.lines)

/-- The line under the cursor (empty if the index is somehow out of range). -/
def Content.curLine (c : Content) : List Char :=
  c.lines.getD c.cursorLine []

/-- `Content::edit(action)`: apply one atomic edit action.  Every action is
total: out-of-range cursor targets clamp to the buffer bounds. -/
def Content.edit (c : Content) (a : Action) : Content :=
  match a with
  | .InsertChar ch =>
    let l := c.curLine
    let col := min c.cursorCol l.length
    { c with lines := c.lines.set c.cursorLine (l.take col ++ ch :: l.drop col),
             cursorCol := col + 1 }
  | .InsertNewline =>
    let l := c.curLine
    let col := min c.cursorCol l.length
    { lines := c.lines.take c.cursorLine ++ [l.take col, l.drop col]
        ++ c.lines.drop (c.cursorLine + 1),
      cursorLine := c.cursorLine + 1,
      cursorCol := 0 }
  | .Backspace =>
    let l := c.curLine
    let col := min c.cursorCol l.length
    if 0 < col then
      { c with lines := c.lines.set c.cursorLine (l.take (col - 1) ++ l.drop col),
               cursorCol := col - 1 }
    else if 0 < c.cursorLine then
      let prev := c.lines.getD (c.cursorLine - 1) []
      { lines := c.lines.take (c.cursorLine - 1) ++ [prev ++ l]
          ++ c.lines.drop (c.cursorLine + 1),
        cursorLine := c.cursorLine - 1,
        cursorCol := prev.length }
    else c
  | .Delete =>
    let l := c.curLine
    let col := min c.cursorCol l.length
    if col < l.length then
      { c with lines := c.lines.set c.cursorLine (l.take col ++ l.drop (col + 1)),
               cursorCol := col }
    else if c.cursorLine + 1 < c.lines.length then
      let next := c.lines.getD (c.cursorLine + 1) []
      { c with lines := c.lines.take c.cursorLine ++ [l ++ next]
          ++ c.lines.drop (c.cursorLine + 2) }
    else c
  | .MoveCursor d =>
    match d with
    | .left => { c with cursorCol := min c.cursorCol c.curLine.length - 1 }
    | .right => { c with cursorCol := min (c.cursorCol + 1) c.curLine.length }
    | .up =>
      let tl := c.cursorLine - 1
      { c with cursorLine := tl,
               cursorCol := min c.cursorCol (c.lines.getD tl []).length }
    | .down =>
      let tl := min (c.cursorLine + 1) (c.lines.length - 1)
      { c with cursorLine := tl,
               cursorCol := min c.cursorCol (c.lines.getD tl []).length }
  | .MoveCursorTo tl tc =>
    let line := min tl (c.lines.length - 1)
    { c with cursorLine := line,
             cursorCol := min tc (c.lines.getD line []).length }

/-- The `Editor` struct of src/main.rs: buffer content, the most recent
error (if any), and the current file path (None while untitled). -/
structure Editor where
  content : Content
  error : Option Error
  path : Option String
deriving DecidableEq, Repr

/-- The `Message` enum of src/main.rs: user events and I/O completion
events fed to `Editor::update`.  Rust `Result<T, Error>` is embedded as
`Except Error T`; `PathBuf` and `Arc<String>` as `String`. -/
inductive Message
  | Edit (a : Action)
  | New
  | Open
  | FileOpened (r : Except Error (String × String))
  | Save
  | FileSaved (r : Except Error String)
deriving Repr

/-- The `Command<Message>` value returned by `Editor::update`: either no
effect, or one scheduled asynchronous operation (`Command::perform`).  Each
constructor records the arguments captured at schedule time. -/
inductive Command
  | none
  | performPickFile
  | performLoadFile (path : String)
  | performSaveFile (path : Option String) (text : String)
deriving DecidableEq, Repr

/-- `Editor::update` from src/main.rs, as a pure function from the current
state and the message to the next state and the returned command. -/
def Editor.update (s : Editor) (m : Message) : Editor × Command :=
  match m with
  | .Edit a =>
    ({ s with content := s.content.edit a, error := Option.none }, Command.none)
  | .New =>
    ({ s with path := Option.none, content := Content.new }, Command.none)
  | .Open =>
    (s, Command.performPickFile)
  | .FileOpened (.ok (p, c)) =>
    ({ s with path := some p, content := Content.withText c }, Command.none)
  | .FileOpened (.error e) =>
    ({ s with error := some e }, Command.none)
  | .Save =>
    (s, Command.performSaveFile s.path s.content.text)
  | .FileSaved (.ok p) =>
    ({ s with path := some p }, Command.none)
  | .FileSaved (.error e) =>
    ({ s with error := some e }, Command.none)

/-- The external world the async operations interact with: the outcome the
open and save dialogs would report (`Option.none` = cancelled or failed to
open), and the filesystem read/write oracles
(`tokio::fs::read_to_string` / `tokio::fs::write`). -/
structure Env where
  pickOpenDialog : Option String
  pickSaveDialog : Option String
  readFile : String → Except IoErrorKind String
  writeFile : String → String → Except IoErrorKind Unit

/-- `load_file(path)` from src/main.rs: read the file, mapping a read
failure of kind `k` to `Error::IoError(k)` and success to `(path, content)`. -/
def load_file (env : Env) (path : String) : Except Error (String × String) :=
  match env.readFile path with
  | .error k => .error (Error.IoError k)
  | .ok content => .ok (path, content)

/-- `pick_file()` from src/main.rs: ask the open dialog for a path, failing
with `DialogError` when it yields none, then load the chosen file. -/
def pick_file (env : Env) : Except Error (String × String) :=
  match env.pickOpenDialog with
  | Option.none => .error Error.DialogError
  | some p => load_file env p

/-- The write-and-return-path tail of `save_file`: `tokio::fs::write`
failures of kind `k` become `Error::IoError(k)`, success yields the path. -/
def write_file (env : Env) (p : String) (text : String) : Except Error String :=
  match env.writeFile p text with
  | .error k => .error (Error.IoError k)
  | .ok _ => .ok p

/-- `save_file(path, text)` from src/main.rs: use the given path if there is
one, otherwise ask the save dialog (failing with `DialogError` when it
yields none), then write the text to the resolved path. -/
def save_file (env : Env) (path : Option String) (text : String) :
    Except Error String :=
  match path with
  | some p => write_file env p text
  | Option.none =>
    match env.pickSaveDialog with
    | Option.none => .error Error.DialogError
    | some p => write_file env p text

/-- A concrete editor state used by the concrete witnesses: empty untitled
buffer displaying a dialog error. -/
def sampleEditor : Editor :=
  { content := Content.new, error := some Error.DialogError, path := Option.none }

/-- A concrete environment used by the concrete witnesses: both dialogs
cancelled, every read fails with NotFound, every write succeeds. -/
def sampleEnv : Env :=
  { pickOpenDialog := Option.none
    pickSaveDialog := Option.none
    readFile := fun _ => .error IoErrorKind.NotFound
    writeFile := fun _ _ => .ok () }

end Rio

namespace Rio

/-- Claim C1, counterexample: in a state displaying `DialogError`, processing
`FileOpened(Ok("a.txt", "hi"))` leaves `last_error` non-None — the code's
successful-completion arms do not clear the error, so the claim as stated is
false. -/
theorem successful_open_does_not_clear_error :
    (Editor.update sampleEditor
        (Message.FileOpened (Except.ok ("a.txt", "hi")))).1.error ≠ Option.none := by
  decide

/-- Claim C1, amended: for every editor state, processing `FileOpened(Ok(p, c))`
or `FileSaved(Ok(q))` leaves the `last_error` field unchanged — successful I/O
completions do not clear a previously displayed error. -/
theorem successful_completion_leaves_error_unchanged (s : Editor) (p c q : String) :
    (s.update (Message.FileOpened (Except.ok (p, c)))).1.error = s.error ∧
    (s.update (Message.FileSaved (Except.ok q))).1.error = s.error := by
  constructor <;> rfl

/-- Claim C2: processing `FileOpened(Err(e))` sets `last_error` to `Some(e)`
while leaving the buffer content and the path unchanged, and schedules no
effect. -/
theorem failed_open_sets_error_only (s : Editor) (e : Error) :
    (s.update (Message.FileOpened (Except.error e))).1.error = some e ∧
    (s.update (Message.FileOpened (Except.error e))).1.content = s.content ∧
    (s.update (Message.FileOpened (Except.error e))).1.path = s.path ∧
    (s.update (Message.FileOpened (Except.error e))).2 = Command.none := by
  refine ⟨rfl, rfl, rfl, rfl⟩

/-- Claim C3: with `path = None`, a `Save` request captures the current buffer
text and schedules the save effect with no path, which consults the save
dialog; when that dialog is cancelled the effect resolves to
`Err(DialogError)`, and processing the resulting `FileSaved` completion sets
`last_error = DialogError` while the path stays `None`. -/
theorem save_without_path_dialog_cancel (s : Editor) (env : Env)
    (hpath : s.path = Option.none) (hcancel : env.pickSaveDialog = Option.none) :
    (s.update Message.Save).2 = Command.performSaveFile Option.none s.content.text ∧
    save_file env s.path s.content.text = Except.error Error.DialogError ∧
    (s.update (Message.FileSaved (save_file env s.path s.content.text))).1.error
      = some Error.DialogError ∧
    (s.update (Message.FileSaved (save_file env s.path s.content.text))).1.path
      = Option.none := by
  have hsave : save_file env s.path s.content.text = Except.error Error.DialogError := by
    rw [hpath]; unfold save_file; rw [hcancel]
  refine ⟨?_, hsave, ?_, ?_⟩
  · show Command.performSaveFile s.path s.content.text
      = Command.performSaveFile Option.none s.content.text
    rw [hpath]
  · rw [hsave]; rfl
  · rw [hsave]; exact hpath

/-- Claim C3 witness: the theorem instantiated at the concrete untitled editor
state and the environment whose save dialog is cancelled. -/
theorem save_without_path_dialog_cancel_witness :
    sampleEditor.path = Option.none ∧ sampleEnv.pickSaveDialog = Option.none ∧
    ((sampleEditor.update Message.Save).2
        = Command.performSaveFile Option.none sampleEditor.content.text ∧
      save_file sampleEnv sampleEditor.path sampleEditor.content.text
        = Except.error Error.DialogError ∧
      (sampleEditor.update (Message.FileSaved
          (save_file sampleEnv sampleEditor.path sampleEditor.content.text))).1.error
        = some Error.DialogError ∧
      (sampleEditor.update (Message.FileSaved
          (save_file sampleEnv sampleEditor.path sampleEditor.content.text))).1.path
        = Option.none) :=
  ⟨rfl, rfl, save_without_path_dialog_cancel sampleEditor sampleEnv rfl rfl⟩

/-- Claim C4: processing `Edit(a)` applies `a` to the buffer synchronously in
every state, clears `last_error`, and schedules no effect; consequently an
error just set by a failed open is cleared by the next edit. -/
theorem edit_applies_and_clears_error (s : Editor) (a : Action) :
    s.update (Message.Edit a)
      = ({ s with content := s.content.edit a, error := Option.none },
          Command.none) ∧
    ∀ e : Error,
      (((s.update (Message.FileOpened (Except.error e))).1.update
          (Message.Edit a)).1.error = Option.none) := by
  exact ⟨rfl, fun _ => rfl⟩

/-- Claim C5: processing `FileOpened(Ok(p, c))` sets the path to `Some(p)` and
replaces the buffer with a fresh buffer built from `c` alone (the previous
buffer and cursor are discarded), scheduling no effect. -/
theorem successful_open_replaces_buffer (s : Editor) (p c : String) :
    s.update (Message.FileOpened (Except.ok (p, c)))
      = ({ s with path := some p, content := Content.withText c },
          Command.none) := by
  rfl

/-- Claim C6: processing `New` resets the path to `None` and the buffer to the
fresh empty buffer, and returns no command (nothing cancels an in-flight
effect). -/
theorem new_resets_path_and_buffer (s : Editor) :
    s.update Message.New
      = ({ s with path := Option.none, content := Content.new },
          Command.none) := by
  rfl

/-- Claim C7: `pick_file` fails with `DialogError` exactly when the open
dialog yields no file; `load_file` fails with `IoError(k)` exactly when the
underlying read fails with kind `k`; and `DialogError`/`IoError` are the only
error outcomes of either operation. -/
theorem file_operations_error_characterization (env : Env) (p : String) :
    (pick_file env = Except.error Error.DialogError
        ↔ env.pickOpenDialog = Option.none) ∧
    (∀ k, load_file env p = Except.error (Error.IoError k)
        ↔ env.readFile p = Except.error k) ∧
    (∀ e, load_file env p = Except.error e → ∃ k, e = Error.IoError k) ∧
    (∀ e, pick_file env = Except.error e
        → e = Error.DialogError ∨ ∃ k, e = Error.IoError k) := by
  have hload : ∀ q e, load_file env q = Except.error e → ∃ k, e = Error.IoError k := by
    intro q e h
    unfold load_file at h
    cases hr : env.readFile q with
    | error k => rw [hr] at h; exact ⟨k, (Except.error.injEq _ _).mp h.symm⟩
    | ok c => rw [hr] at h; exact absurd h (by simp)
  refine ⟨?_, ?_, hload p, ?_⟩
  · constructor
    · intro h
      cases hd : env.pickOpenDialog with
      | none => rfl
      | some q =>
        unfold pick_file at h; rw [hd] at h
        obtain ⟨k, hk⟩ := hload q _ h
        exact absurd hk (by simp)
    · intro h; unfold pick_file; rw [h]
  · intro k
    unfold load_file
    cases hr : env.readFile p with
    | error k2 => simp [hr]
    | ok c => simp [hr]
  · intro e h
    cases hd : env.pickOpenDialog with
    | none =>
      unfold pick_file at h; rw [hd] at h
      exact Or.inl ((Except.error.injEq _ _).mp h.symm)
    | some q =>
      unfold pick_file at h; rw [hd] at h
      exact Or.inr (hload q e h)

/-- Claim C7 witness: at the concrete environment whose open dialog is
cancelled and whose reads fail with NotFound, `pick_file` yields
`DialogError` and `load_file` yields `IoError(NotFound)`. -/
theorem file_operations_error_characterization_witness :
    pick_file sampleEnv = Except.error Error.DialogError ∧
    load_file sampleEnv "missing.txt"
      = Except.error (Error.IoError IoErrorKind.NotFound) :=
  ⟨(file_operations_error_characterization sampleEnv "missing.txt").1.mpr rfl,
    ((file_operations_error_characterization sampleEnv "missing.txt").2.1
      IoErrorKind.NotFound).mpr rfl⟩

/-- Claim C8: processing `New` leaves the `last_error` field unchanged — a
displayed error survives creating a new file even though path and buffer are
reset. -/
theorem new_leaves_error_unchanged (s : Editor) :
    (s.update Message.New).1.error = s.error := by
  rfl

/-- Claim C9: with a concrete path already known, `save_file(Some(p), t)`
never returns `DialogError` — no dialog is consulted, and any failure is an
`IoError` from the write. -/
theorem save_with_path_never_dialog_error (env : Env) (p t : String) :
    save_file env (some p) t ≠ Except.error Error.DialogError ∧
    ∀ e, save_file env (some p) t = Except.error e → ∃ k, e = Error.IoError k := by
  have herr : ∀ e, save_file env (some p) t = Except.error e
      → ∃ k, e = Error.IoError k := by
    intro e h
    have hs : save_file env (some p) t = write_file env p t := rfl
    rw [hs] at h
    unfold write_file at h
    cases hw : env.writeFile p t with
    | error k => rw [hw] at h; exact ⟨k, (Except.error.injEq _ _).mp h.symm⟩
    | ok u => rw [hw] at h; exact absurd h (by simp)
  refine ⟨?_, herr⟩
  intro h
  obtain ⟨k, hk⟩ := herr Error.DialogError h
  exact absurd hk (by simp)

/-- Claim C9 witness: the no-DialogError part at a concrete environment, path
and text. -/
theorem save_with_path_never_dialog_error_witness :
    save_file sampleEnv (some "a.txt") "hi" ≠ Except.error Error.DialogError :=
  (save_with_path_never_dialog_error sampleEnv "a.txt" "hi").1

/-- Claim C10: processing `FileSaved(Ok(p))` sets the path to `Some(p)` and
leaves the buffer content (text and cursor) and the error field unchanged,
scheduling no effect. -/
theorem successful_save_sets_path_only (s : Editor) (p : String) :
    s.update (Message.FileSaved (Except.ok p))
      = ({ s with path := some p }, Command.none) := by
  rfl

end Rio
